import Mathlib

/-!
# Verification of the MagazineStylePoster generator's layout and export logic

Shallow embedding of `src/components/PosterGenerator.tsx` and the two
revisions of the same component found in `src/unnamed/part_001`.  JavaScript
number arithmetic on sizes and positions is modelled over `ℚ` (every
computation the claims exercise is exact rational arithmetic).  Stateful
React `useState` slots become fields of an explicit `CanvasState` record;
each event handler becomes a function from state to state.
-/

namespace Poster

/-- A 2-D size in CSS pixels, as held by the `imageSize` state slot. -/
@[ext]
structure Size where
  width : ℚ
  height : ℚ
  deriving DecidableEq, Repr

/-- A layer position `{x, y}` relative to the canvas origin, as held by the
`titlePosition` / `subtitlePosition` / `qrCodePosition` / `imagePosition`
state slots. -/
@[ext]
structure Pos where
  x : ℚ
  y : ℚ
  deriving DecidableEq, Repr

/-!
## Image geometry resolver

Embeds the body of the `img.onload` callback of the geometry `useEffect`
(`src/unnamed/part_001` lines 102–112, repeated verbatim at lines 369–379):

```
const aspectRatio = img.width / img.height;
let newWidth = watchWidth;
let newHeight = newWidth / aspectRatio;
if (newHeight > watchHeight) {
  newHeight = watchHeight;
  newWidth = newHeight * aspectRatio;
}
setImageSize({ width: newWidth, height: newHeight });
```
-/

/-- Contain-fit geometry for the image layer, translated from the
`img.onload` handler of the geometry effect in `src/unnamed/part_001`. -/
def resolveInitialImageGeometry (intrinsicW intrinsicH canvasW canvasH : ℚ) :
    Size :=
  let aspectRatio := intrinsicW / intrinsicH
  let newWidth := canvasW
  let newHeight := newWidth / aspectRatio
  if newHeight > canvasH then
    { width := canvasH * aspectRatio, height := canvasH }
  else
    { width := newWidth, height := newHeight }

/-!
## Layer state store

The component keeps one `useState` slot per layer position plus one for the
image size (`src/unnamed/part_001` lines 37–41 / 285–289).  `CanvasState`
gathers those slots together with the watched canvas dimensions.
-/

/-- The four layers of the poster. -/
inductive LayerId
  | image
  | title
  | subtitle
  | qrCode
  deriving DecidableEq, Repr

/-- The mutable state of the component: the watched canvas dimensions and
the per-layer `useState` slots of `src/unnamed/part_001`. -/
@[ext]
structure CanvasState where
  canvasW : ℚ
  canvasH : ℚ
  titlePos : Pos
  subtitlePos : Pos
  qrCodePos : Pos
  imagePos : Pos
  imageSize : Size
  deriving DecidableEq, Repr

/-- The initial `useState` values of `src/unnamed/part_001` (lines 37–41):
title `(20, 20)`, subtitle `(20, 80)`, QR code `(20, 140)`, image `(0, 0)`
with size `(0, 0)`. -/
def initialCanvasState (w h : ℚ) : CanvasState :=
  { canvasW := w, canvasH := h,
    titlePos := ⟨20, 20⟩, subtitlePos := ⟨20, 80⟩,
    qrCodePos := ⟨20, 140⟩, imagePos := ⟨0, 0⟩,
    imageSize := ⟨0, 0⟩ }

/-- Position of a layer in the state. -/
def layerPos : LayerId → CanvasState → Pos
  | .image, s => s.imagePos
  | .title, s => s.titlePos
  | .subtitle, s => s.subtitlePos
  | .qrCode, s => s.qrCodePos

/-- Models the `bounds="parent"` behaviour of the `react-draggable`
`Draggable` wrapper each layer is rendered in: the drag data delivered to
`onStop` is the requested target offset clamped so the dragged node's box
stays inside the parent (the poster div of size `canvasW × canvasH`). -/
def clampToParent (canvasW canvasH layerW layerH x y : ℚ) : Pos :=
  { x := min (max x 0) (canvasW - layerW),
    y := min (max y 0) (canvasH - layerH) }

/-- Rendered box of the QR-code layer: `QRCodeSVG size={100}` inside a
`p-2` wrapper (8px of padding on each side), hence 116×116. -/
def qrLayerSize : Size := ⟨116, 116⟩

/-- A drag-stop commit: the `onStop` handlers
(`setTitlePosition({ x: data.x, y: data.y })` and its three siblings,
`src/unnamed/part_001` lines 169/194/208/222 and 437/462/477/492) store the
clamped drag data into the one position slot of the dragged layer. -/
def commitDrag (lid : LayerId) (layerW layerH : ℚ) (s : CanvasState)
    (x y : ℚ) : CanvasState :=
  let p := clampToParent s.canvasW s.canvasH layerW layerH x y
  match lid with
  | .image => { s with imagePos := p }
  | .title => { s with titlePos := p }
  | .subtitle => { s with subtitlePos := p }
  | .qrCode => { s with qrCodePos := p }

/-!
## Image resize

`src/unnamed/part_001` wraps the image in `re-resizable`'s `Resizable` with
`minWidth={100} minHeight={100} maxWidth={watchWidth} maxHeight={watchHeight}`
and commits on `onResizeStop` (lines 173–178 and 441–446):

```
onResizeStop={(e, direction, ref, d) => {
  setImageSize({
    width: imageSize.width + d.width,
    height: imageSize.height + d.height
  });
}}
```

`src/components/PosterGenerator.tsx` instead uses `react-resizable` with no
min/max props and commits on every `onResize` frame (lines 139–143):
`onResize={(e, {size}) => setImageSize(size)}`.
-/

/-- Models the accumulated delta `d` that `re-resizable` delivers to
`onResizeStop`: the library clamps the in-gesture size to
`[minV, maxV]`, so the delivered delta moves `old` to
`min (max (old + req) minV) maxV`, where `req` is the raw gesture delta. -/
def reResizableDelta (minV maxV old req : ℚ) : ℚ :=
  min (max (old + req) minV) maxV - old

/-- The `onResizeStop` commit of `src/unnamed/part_001`:
`setImageSize({width: imageSize.width + d.width, height: imageSize.height + d.height})`,
with `d` the library-clamped delta under `minWidth=minHeight=100`,
`maxWidth=watchWidth`, `maxHeight=watchHeight`. -/
def commitResize (s : CanvasState) (reqW reqH : ℚ) : CanvasState :=
  { s with imageSize :=
      ⟨s.imageSize.width + reResizableDelta 100 s.canvasW s.imageSize.width reqW,
       s.imageSize.height + reResizableDelta 100 s.canvasH s.imageSize.height reqH⟩ }

/-- The `onResize` handler of `src/components/PosterGenerator.tsx`
(line 142): fires on every intermediate resize frame, no min/max props, and
stores the delivered size unchanged: `setImageSize(size)`. -/
def onResizeCommit_tsx (s : CanvasState) (newSize : Size) : CanvasState :=
  { s with imageSize := newSize }

/-!
## Geometry effect and initialization
-/

/-- One run of the geometry `useEffect` of `src/unnamed/part_001`
(lines 365–382): with a loaded image preview it unconditionally overwrites
`imageSize` with the contain fit.  Its dependency array is
`[watchWidth, watchHeight, imagePreview]`, so it re-runs on every change of
the canvas dimensions or of the source image; no flag records a manual
resize. -/
def runGeometryEffect (intrinsicW intrinsicH : ℚ) (s : CanvasState) :
    CanvasState :=
  { s with imageSize :=
      resolveInitialImageGeometry intrinsicW intrinsicH s.canvasW s.canvasH }

/-- Changing the watched width field: `watchWidth` is in the geometry
effect's dependency array, so the effect re-runs after the change. -/
def setCanvasWidth (w intrinsicW intrinsicH : ℚ) (s : CanvasState) :
    CanvasState :=
  runGeometryEffect intrinsicW intrinsicH { s with canvasW := w }

/-- State right after a successful generation in `src/unnamed/part_001`
(second revision): the reset effect (lines 356–363) places the title at
`(20, 20)`, the subtitle at `(20, 80)`, the QR code at
`(20, watchHeight − 120)` and the image at `(0, 0)`, and the geometry
effect resolves the image size to the contain fit. -/
def initializePoster (canvasW canvasH intrinsicW intrinsicH : ℚ) :
    CanvasState :=
  { canvasW := canvasW, canvasH := canvasH,
    titlePos := ⟨20, 20⟩, subtitlePos := ⟨20, 80⟩,
    qrCodePos := ⟨20, canvasH - 120⟩, imagePos := ⟨0, 0⟩,
    imageSize :=
      resolveInitialImageGeometry intrinsicW intrinsicH canvasW canvasH }

/-- The rendered layer stack: nothing when `generatedPoster` is false
(the whole poster block is guarded by `{generatedPoster && (...)}`);
otherwise the four absolutely positioned layers in paint order
image, title, subtitle, QR code. -/
def renderedLayers (generated : Bool) (s : CanvasState) :
    List (LayerId × Pos) :=
  if generated then
    [(.image, s.imagePos), (.title, s.titlePos),
     (.subtitle, s.subtitlePos), (.qrCode, s.qrCodePos)]
  else []

/-!
## Export pipeline

Embeds `downloadPoster` (identical in all three revisions,
`src/components/PosterGenerator.tsx` lines 68–92).
-/

/-- Export failure cases. -/
inductive ExportError
  | surfaceUnavailable
  | renderError
  deriving DecidableEq, Repr

/-- Observable outcome of one `downloadPoster` call: the component state
afterwards, how many toast notifications were emitted, the triggered
download (filename and raster size) if any, and the error if any. -/
structure ExportOutcome where
  state : CanvasState
  toasts : ℕ
  download : Option (String × Size)
  err : Option ExportError
  deriving DecidableEq, Repr

/-- The composition surface handle `posterRef.current`: the poster div is
mounted only when `generatedPoster` is true, and its CSS size is
`watchWidth × watchHeight` (the canvas dimensions). -/
def surfaceHandle (generated : Bool) (s : CanvasState) : Option Size :=
  if generated then some ⟨s.canvasW, s.canvasH⟩ else none

/-- Models `html-to-image`'s `toPng` on a mounted node at pixel ratio 1:
the produced raster has the node's pixel dimensions. -/
def toPng (node : Size) : Size := node

/-- `downloadPoster`: a null `posterRef.current` emits one destructive
toast and returns; otherwise `toPng` runs, and on success an anchor with
`download = 'magazine-poster.png'` is clicked, while a rejection is caught
and reported as one destructive toast.  No state setter is called on any
path, so the component state is returned unchanged.  `rasterOk` abstracts
whether the `toPng` promise resolves or rejects. -/
def downloadPoster (generated rasterOk : Bool) (s : CanvasState) :
    ExportOutcome :=
  match surfaceHandle generated s with
  | none =>
      { state := s, toasts := 1, download := none,
        err := some .surfaceUnavailable }
  | some node =>
      if rasterOk then
        { state := s, toasts := 0,
          download := some ("magazine-poster.png", toPng node), err := none }
      else
        { state := s, toasts := 1, download := none,
          err := some .renderError }

/-!
## Dimension validation
-/

/-- Decimal value of a digit run, as `Number` computes it on a string the
regex `^\d+$` has accepted.  Raw field input is modelled as its character
list. -/
def decimalValue (cs : List Char) : ℕ :=
  cs.foldl (fun n c => 10 * n + (c.toNat - 48)) 0

/-- The `width`/`height` field rule of `src/components/PosterGenerator.tsx`
(lines 31–32): `z.string().regex(/^\d+$/).transform(Number)` — the raw
string must be a non-empty run of digits, and is then converted to a
number. -/
def validateDimension (raw : List Char) : Option ℕ :=
  if raw ≠ [] ∧ raw.all Char.isDigit then some (decimalValue raw) else none

/-- The `width`/`height` field rule of the first revision in
`src/unnamed/part_001` (lines 23–24):
`z.string().min(1, "Width must be a positive number").transform(Number)` —
only non-emptiness is checked before the numeric conversion. -/
def validateDimension_v1 (raw : List Char) : Bool :=
  1 ≤ raw.length

end Poster

/-- C1: for positive intrinsic and canvas dimensions the resolver takes the
full canvas width and derives the height from the aspect ratio, switching to
the height-clamped branch exactly when that height exceeds the canvas
height; the result never exceeds the canvas and preserves the intrinsic
aspect ratio, and the two concrete scenarios of the spec
(2000×1000 on 800×1000 ↦ 800×400, 2000×1000 on 400×100 ↦ 200×100) hold. -/
theorem C1_resolveInitialImageGeometry_contain_fit
    (iw ih cw ch : ℚ) (hiw : 0 < iw) (hih : 0 < ih)
    (hcw : 0 < cw) (hch : 0 < ch) :
    (¬ cw / (iw / ih) > ch →
        Poster.resolveInitialImageGeometry iw ih cw ch
          = ⟨cw, cw / (iw / ih)⟩) ∧
    (cw / (iw / ih) > ch →
        Poster.resolveInitialImageGeometry iw ih cw ch
          = ⟨ch * (iw / ih), ch⟩) ∧
    (Poster.resolveInitialImageGeometry iw ih cw ch).width ≤ cw ∧
    (Poster.resolveInitialImageGeometry iw ih cw ch).height ≤ ch ∧
    (Poster.resolveInitialImageGeometry iw ih cw ch).width
        / (Poster.resolveInitialImageGeometry iw ih cw ch).height
      = iw / ih ∧
    Poster.resolveInitialImageGeometry 2000 1000 800 1000 = ⟨800, 400⟩ ∧
    Poster.resolveInitialImageGeometry 2000 1000 400 100 = ⟨200, 100⟩ := by
  have har : 0 < iw / ih := div_pos hiw hih
  have har' : iw / ih ≠ 0 := ne_of_gt har
  constructor
  · intro h
    simp only [Poster.resolveInitialImageGeometry, if_neg h]
  constructor
  · intro h
    simp only [Poster.resolveInitialImageGeometry, if_pos h]
  refine ⟨?_, ?_, ?_, ?_, ?_⟩
  · -- width ≤ canvasW in both branches
    unfold Poster.resolveInitialImageGeometry
    by_cases h : cw / (iw / ih) > ch
    · simp only [if_pos h]
      have : ch * (iw / ih) < cw := (lt_div_iff₀ har).mp h
      exact le_of_lt this
    · simp only [if_neg h]
      exact le_refl cw
  · -- height ≤ canvasH in both branches
    unfold Poster.resolveInitialImageGeometry
    by_cases h : cw / (iw / ih) > ch
    · simp only [if_pos h]
      exact le_refl ch
    · simp only [if_neg h]
      exact le_of_not_lt h
  · -- aspect ratio preserved
    unfold Poster.resolveInitialImageGeometry
    by_cases h : cw / (iw / ih) > ch
    · simp only [if_pos h]
      field_simp
      ring
    · simp only [if_neg h]
      have hcw' : cw ≠ 0 := ne_of_gt hcw
      field_simp
      ring
  · norm_num [Poster.resolveInitialImageGeometry]
  · norm_num [Poster.resolveInitialImageGeometry]

/-- Witness for C1 at the spec's concrete scenario. -/
theorem C1_resolveInitialImageGeometry_contain_fit_witness :
    (Poster.resolveInitialImageGeometry 2000 1000 800 1000).width ≤ 800 ∧
    (Poster.resolveInitialImageGeometry 2000 1000 800 1000).height ≤ 1000 :=
  ⟨(C1_resolveInitialImageGeometry_contain_fit 2000 1000 800 1000
      (by norm_num) (by norm_num) (by norm_num) (by norm_num)).2.2.1,
   (C1_resolveInitialImageGeometry_contain_fit 2000 1000 800 1000
      (by norm_num) (by norm_num) (by norm_num) (by norm_num)).2.2.2.1⟩

/-- C2: a committed drag of any layer whose box fits in the canvas lands
within the canvas rectangle: `0 ≤ x`, `0 ≤ y`, `x + layerW ≤ canvasW`,
`y + layerH ≤ canvasH`; in particular dragging the 116×116 QR-code layer
toward `(2000, 2000)` on a 1080×1920 canvas commits `(964, 1804)`, with
`964 + 116 ≤ 1080` and `1804 + 116 ≤ 1920`. -/
theorem C2_commitDrag_within_bounds
    (lid : Poster.LayerId) (lw lh : ℚ) (s : Poster.CanvasState) (x y : ℚ)
    (hw : lw ≤ s.canvasW) (hh : lh ≤ s.canvasH) :
    (0 ≤ (Poster.layerPos lid (Poster.commitDrag lid lw lh s x y)).x ∧
     0 ≤ (Poster.layerPos lid (Poster.commitDrag lid lw lh s x y)).y ∧
     (Poster.layerPos lid (Poster.commitDrag lid lw lh s x y)).x + lw
        ≤ s.canvasW ∧
     (Poster.layerPos lid (Poster.commitDrag lid lw lh s x y)).y + lh
        ≤ s.canvasH) ∧
    Poster.layerPos .qrCode
        (Poster.commitDrag .qrCode Poster.qrLayerSize.width
          Poster.qrLayerSize.height (Poster.initialCanvasState 1080 1920)
          2000 2000)
      = ⟨964, 1804⟩ := by
  have key : ∀ cW cH lw' lh' x' y' : ℚ, lw' ≤ cW → lh' ≤ cH →
      0 ≤ (Poster.clampToParent cW cH lw' lh' x' y').x ∧
      0 ≤ (Poster.clampToParent cW cH lw' lh' x' y').y ∧
      (Poster.clampToParent cW cH lw' lh' x' y').x + lw' ≤ cW ∧
      (Poster.clampToParent cW cH lw' lh' x' y').y + lh' ≤ cH := by
    intro cW cH lw' lh' x' y' hw' hh'
    refine ⟨?_, ?_, ?_, ?_⟩
    · exact le_min (le_max_right x' 0) (by linarith)
    · exact le_min (le_max_right y' 0) (by linarith)
    · have h := min_le_right (max x' 0) (cW - lw')
      show min (max x' 0) (cW - lw') + lw' ≤ cW
      linarith
    · have h := min_le_right (max y' 0) (cH - lh')
      show min (max y' 0) (cH - lh') + lh' ≤ cH
      linarith
  have hconc : Poster.layerPos .qrCode
      (Poster.commitDrag .qrCode Poster.qrLayerSize.width
        Poster.qrLayerSize.height (Poster.initialCanvasState 1080 1920)
        2000 2000)
      = ⟨964, 1804⟩ := by
    show Poster.clampToParent 1080 1920 116 116 2000 2000 = ⟨964, 1804⟩
    simp only [Poster.clampToParent, Poster.Pos.mk.injEq]
    norm_num [min_def, max_def]
  obtain ⟨h1, h2, h3, h4⟩ := key s.canvasW s.canvasH lw lh x y hw hh
  cases lid
  · exact ⟨⟨h1, h2, h3, h4⟩, hconc⟩
  · exact ⟨⟨h1, h2, h3, h4⟩, hconc⟩
  · exact ⟨⟨h1, h2, h3, h4⟩, hconc⟩
  · exact ⟨⟨h1, h2, h3, h4⟩, hconc⟩

/-- Witness for C2: the QR-code layer dragged toward `(2000, 2000)` on the
1080×1920 canvas. -/
theorem C2_commitDrag_within_bounds_witness :
    (0 ≤ (Poster.layerPos .qrCode
        (Poster.commitDrag .qrCode 116 116
          (Poster.initialCanvasState 1080 1920) 2000 2000)).x ∧
     0 ≤ (Poster.layerPos .qrCode
        (Poster.commitDrag .qrCode 116 116
          (Poster.initialCanvasState 1080 1920) 2000 2000)).y ∧
     (Poster.layerPos .qrCode
        (Poster.commitDrag .qrCode 116 116
          (Poster.initialCanvasState 1080 1920) 2000 2000)).x + 116
        ≤ (Poster.initialCanvasState 1080 1920).canvasW ∧
     (Poster.layerPos .qrCode
        (Poster.commitDrag .qrCode 116 116
          (Poster.initialCanvasState 1080 1920) 2000 2000)).y + 116
        ≤ (Poster.initialCanvasState 1080 1920).canvasH) ∧
    Poster.layerPos .qrCode
        (Poster.commitDrag .qrCode Poster.qrLayerSize.width
          Poster.qrLayerSize.height (Poster.initialCanvasState 1080 1920)
          2000 2000)
      = ⟨964, 1804⟩ :=
  C2_commitDrag_within_bounds .qrCode 116 116
    (Poster.initialCanvasState 1080 1920) 2000 2000
    (by norm_num [Poster.initialCanvasState])
    (by norm_num [Poster.initialCanvasState])

/-- C3: the geometry effect of `src/unnamed/part_001` re-runs whenever the
watched canvas dimensions change, with no record of a prior manual resize;
concretely, after generating on a 344×444 canvas with a 200×100 image
(contain fit 344×172) and manually resizing the image to 150×150, changing
the canvas width to 400 re-runs the effect and overwrites the manual size
with the recomputed contain fit 400×200. -/
theorem C3_geometry_effect_overwrites_manual_resize :
    (Poster.commitResize
        (Poster.runGeometryEffect 200 100 (Poster.initialCanvasState 344 444))
        (-194) (-22)).imageSize = ⟨150, 150⟩ ∧
    (Poster.setCanvasWidth 400 200 100
        (Poster.commitResize
          (Poster.runGeometryEffect 200 100
            (Poster.initialCanvasState 344 444))
          (-194) (-22))).imageSize = ⟨400, 200⟩ ∧
    (⟨400, 200⟩ : Poster.Size) ≠ ⟨150, 150⟩ := by
  norm_num [Poster.commitResize, Poster.runGeometryEffect,
    Poster.setCanvasWidth, Poster.initialCanvasState,
    Poster.resolveInitialImageGeometry, Poster.reResizableDelta,
    min_def, max_def]

/-- The contain fit never exceeds the canvas width. -/
theorem resolve_width_le (iw ih cw ch : ℚ) (hiw : 0 < iw) (hih : 0 < ih) :
    (Poster.resolveInitialImageGeometry iw ih cw ch).width ≤ cw := by
  have har : 0 < iw / ih := div_pos hiw hih
  unfold Poster.resolveInitialImageGeometry
  by_cases h : cw / (iw / ih) > ch
  · simp only [if_pos h]
    exact le_of_lt ((lt_div_iff₀ har).mp h)
  · simp only [if_neg h]
    exact le_refl cw

/-- The contain fit never exceeds the canvas height. -/
theorem resolve_height_le (iw ih cw ch : ℚ) :
    (Poster.resolveInitialImageGeometry iw ih cw ch).height ≤ ch := by
  unfold Poster.resolveInitialImageGeometry
  by_cases h : cw / (iw / ih) > ch
  · simp only [if_pos h]
    exact le_refl ch
  · simp only [if_neg h]
    exact le_of_not_lt h

/-- C4 counterexample: canvas height 100 is a valid positive integer
dimension, yet the reset effect puts the QR-code layer at
`(20, 100 − 120) = (20, −20)`, outside the canvas. -/
theorem C4_counterexample_qr_above_canvas :
    (Poster.initializePoster 344 100 200 100).qrCodePos = ⟨20, -20⟩ ∧
    ¬ 0 ≤ (Poster.initializePoster 344 100 200 100).qrCodePos.y := by
  norm_num [Poster.initializePoster]

/-- C4 amended: zero layers are rendered before generation; generation
renders exactly four layers, one per variant in paint order; and provided
`canvasWidth ≥ 136` and `canvasHeight ≥ 120` every layer's position lies in
the canvas rectangle and the image and QR-code boxes fit inside it. -/
theorem C4_initializePoster_four_layers
    (cw ch iw ih : ℚ) (hiw : 0 < iw) (hih : 0 < ih)
    (hcw : 136 ≤ cw) (hch : 120 ≤ ch) :
    (∀ s : Poster.CanvasState, Poster.renderedLayers false s = []) ∧
    (Poster.renderedLayers true
        (Poster.initializePoster cw ch iw ih)).map Prod.fst
      = [.image, .title, .subtitle, .qrCode] ∧
    (Poster.renderedLayers true
        (Poster.initializePoster cw ch iw ih)).length = 4 ∧
    (∀ p ∈ Poster.renderedLayers true (Poster.initializePoster cw ch iw ih),
        0 ≤ p.2.x ∧ p.2.x ≤ cw ∧ 0 ≤ p.2.y ∧ p.2.y ≤ ch) ∧
    (Poster.initializePoster cw ch iw ih).imageSize.width ≤ cw ∧
    (Poster.initializePoster cw ch iw ih).imageSize.height ≤ ch ∧
    (Poster.initializePoster cw ch iw ih).qrCodePos.x
        + Poster.qrLayerSize.width ≤ cw ∧
    (Poster.initializePoster cw ch iw ih).qrCodePos.y
        + Poster.qrLayerSize.height ≤ ch := by
  refine ⟨fun s => rfl, rfl, rfl, ?_, ?_, ?_, ?_, ?_⟩
  · intro p hp
    simp only [Poster.renderedLayers, Poster.initializePoster,
      List.mem_cons, List.not_mem_nil, or_false, if_true] at hp
    rcases hp with h | h | h | h <;> subst h <;>
      refine ⟨?_, ?_, ?_, ?_⟩ <;> norm_num <;> linarith
  · exact resolve_width_le iw ih cw ch hiw hih
  · exact resolve_height_le iw ih cw ch
  · show (20 : ℚ) + 116 ≤ cw
    linarith
  · show ch - 120 + 116 ≤ ch
    linarith

/-- Witness for C4 (amended) on a 344×444 canvas with a 200×100 image. -/
theorem C4_initializePoster_four_layers_witness :
    (Poster.renderedLayers true
        (Poster.initializePoster 344 444 200 100)).length = 4 ∧
    (Poster.initializePoster 344 444 200 100).imageSize.width ≤ 344 :=
  ⟨(C4_initializePoster_four_layers 344 444 200 100
      (by norm_num) (by norm_num) (by norm_num) (by norm_num)).2.2.1,
   (C4_initializePoster_four_layers 344 444 200 100
      (by norm_num) (by norm_num) (by norm_num) (by norm_num)).2.2.2.2.1⟩

/-- A resize-stop result stays inside `[100, maxV]` when `100 ≤ maxV`. -/
theorem resize_result_bounds (c v r : ℚ) (hc : 100 ≤ c) :
    100 ≤ v + Poster.reResizableDelta 100 c v r ∧
    v + Poster.reResizableDelta 100 c v r ≤ c := by
  unfold Poster.reResizableDelta
  constructor
  · have h2 : (100 : ℚ) ≤ min (max (v + r) 100) c :=
      le_min (le_max_right (v + r) 100) hc
    linarith
  · have h2 := min_le_right (max (v + r) 100) c
    linarith

/-- C5 counterexample: in `src/components/PosterGenerator.tsx` the resize
handler is `onResize` (it fires on intermediate frames) with no min/max
constraints, so committing a size of 2000×1500 on an 800-wide canvas stores
2000 > 800 unclamped. -/
theorem C5_counterexample_onResize_unclamped :
    (Poster.onResizeCommit_tsx (Poster.initialCanvasState 800 1000)
        ⟨2000, 1500⟩).imageSize = ⟨2000, 1500⟩ ∧
    ¬ (Poster.onResizeCommit_tsx (Poster.initialCanvasState 800 1000)
        ⟨2000, 1500⟩).imageSize.width
      ≤ (Poster.initialCanvasState 800 1000).canvasW := by
  norm_num [Poster.onResizeCommit_tsx, Poster.initialCanvasState]

/-- C5 amended: in the `re-resizable` revisions (`src/unnamed/part_001`)
the resize commit applies only at resize-stop, only to the image layer's
size, yields new size = old size + delivered delta, and the result is
clamped to `[100, canvasWidth] × [100, canvasHeight]` whenever the canvas
is at least 100×100; the `react-resizable` revision
(`src/components/PosterGenerator.tsx`) commits on every frame, unclamped. -/
theorem C5_commitResize_stop_clamped (s : Poster.CanvasState) (reqW reqH : ℚ)
    (hw : 100 ≤ s.canvasW) (hh : 100 ≤ s.canvasH) :
    (Poster.commitResize s reqW reqH).imageSize.width
        = s.imageSize.width
          + Poster.reResizableDelta 100 s.canvasW s.imageSize.width reqW ∧
    (Poster.commitResize s reqW reqH).imageSize.height
        = s.imageSize.height
          + Poster.reResizableDelta 100 s.canvasH s.imageSize.height reqH ∧
    100 ≤ (Poster.commitResize s reqW reqH).imageSize.width ∧
    (Poster.commitResize s reqW reqH).imageSize.width ≤ s.canvasW ∧
    100 ≤ (Poster.commitResize s reqW reqH).imageSize.height ∧
    (Poster.commitResize s reqW reqH).imageSize.height ≤ s.canvasH :=
  ⟨rfl, rfl,
   (resize_result_bounds s.canvasW s.imageSize.width reqW hw).1,
   (resize_result_bounds s.canvasW s.imageSize.width reqW hw).2,
   (resize_result_bounds s.canvasH s.imageSize.height reqH hh).1,
   (resize_result_bounds s.canvasH s.imageSize.height reqH hh).2⟩

/-- Witness for C5 (amended) on a 344×444 canvas with a +500 gesture. -/
theorem C5_commitResize_stop_clamped_witness :
    100 ≤ (Poster.commitResize (Poster.initialCanvasState 344 444)
        500 500).imageSize.width ∧
    (Poster.commitResize (Poster.initialCanvasState 344 444)
        500 500).imageSize.width
      ≤ (Poster.initialCanvasState 344 444).canvasW :=
  ⟨(C5_commitResize_stop_clamped (Poster.initialCanvasState 344 444) 500 500
      (by norm_num [Poster.initialCanvasState])
      (by norm_num [Poster.initialCanvasState])).2.2.1,
   (C5_commitResize_stop_clamped (Poster.initialCanvasState 344 444) 500 500
      (by norm_num [Poster.initialCanvasState])
      (by norm_num [Poster.initialCanvasState])).2.2.2.1⟩

/-- Clamping to `[100, c]` is idempotent. -/
theorem resize_clamp_idem (c v : ℚ) :
    min (max (min (max v 100) c) 100) c = min (max v 100) c := by
  rcases le_total (max v 100) c with h | h
  · have h1 : min (max v 100) c = max v 100 := min_eq_left h
    rw [h1, max_eq_left (le_max_right v 100)]
    exact h1
  · have h1 : min (max v 100) c = c := min_eq_right h
    rw [h1]
    exact min_eq_right (le_max_left c 100)

/-- A zero-delta resize-stop applied twice lands where one application
lands. -/
theorem resize_step_idem (c v : ℚ) :
    v + Poster.reResizableDelta 100 c v 0
      + Poster.reResizableDelta 100 c (v + Poster.reResizableDelta 100 c v 0) 0
      = v + Poster.reResizableDelta 100 c v 0 := by
  unfold Poster.reResizableDelta
  simp only [add_zero]
  have hA : v + (min (max v 100) c - v) = min (max v 100) c := by ring
  rw [hA, resize_clamp_idem c v]
  ring

/-- C8 counterexample: the resize commit of `src/unnamed/part_001` is
delta-based, so repeating the same already-clamped delta drifts: from a
200×200 image on an 800×800 canvas, the delta 50 is delivered unchanged by
the clamp (it is already clamped), one commit gives 250×250, and repeating
the very same argument gives 300×300 ≠ 250×250. -/
theorem C8_counterexample_commitResize_drift :
    Poster.reResizableDelta 100 800 200 50 = 50 ∧
    (Poster.commitResize
        { Poster.initialCanvasState 800 800 with imageSize := ⟨200, 200⟩ }
        50 50).imageSize = ⟨250, 250⟩ ∧
    (Poster.commitResize
        (Poster.commitResize
          { Poster.initialCanvasState 800 800 with imageSize := ⟨200, 200⟩ }
          50 50)
        50 50).imageSize = ⟨300, 300⟩ ∧
    (⟨300, 300⟩ : Poster.Size) ≠ ⟨250, 250⟩ := by
  norm_num [Poster.commitResize, Poster.reResizableDelta,
    Poster.initialCanvasState, min_def, max_def]

/-- C8 amended: `commitDrag` applied twice with the same argument equals
one application (for every layer and every argument, clamped or not), and
`commitResize` is idempotent for the zero delta; a repeated nonzero delta
accumulates instead. -/
theorem C8_commitDrag_idempotent_commitResize_zero_delta
    (lid : Poster.LayerId) (lw lh x y : ℚ) (s : Poster.CanvasState) :
    Poster.commitDrag lid lw lh (Poster.commitDrag lid lw lh s x y) x y
      = Poster.commitDrag lid lw lh s x y ∧
    Poster.commitResize (Poster.commitResize s 0 0) 0 0
      = Poster.commitResize s 0 0 := by
  constructor
  · cases lid <;> rfl
  · have hW := resize_step_idem s.canvasW s.imageSize.width
    have hH := resize_step_idem s.canvasH s.imageSize.height
    ext
    all_goals first | rfl | exact hW | exact hH

/-- C6: when the poster is not generated the surface handle is null, so
export emits exactly one notification, triggers no download, and reports
`surfaceUnavailable`; when rasterization rejects, the rejection is caught
and reported as one notification with no download; and on every path the
component state is returned unchanged, so the user may retry. -/
theorem C6_downloadPoster_error_handling
    (s : Poster.CanvasState) (rasterOk : Bool) :
    Poster.downloadPoster false rasterOk s
      = { state := s, toasts := 1, download := none,
          err := some .surfaceUnavailable } ∧
    Poster.downloadPoster true false s
      = { state := s, toasts := 1, download := none,
          err := some .renderError } ∧
    ∀ g r : Bool, (Poster.downloadPoster g r s).state = s := by
  refine ⟨?_, rfl, ?_⟩
  · cases rasterOk <;> rfl
  · intro g r
    cases g <;> cases r <;> rfl

/-- C7: every successful export downloads a file named exactly
`magazine-poster.png` whose raster dimensions are the canvas dimensions;
in particular a 1080×1920 canvas exports a 1080×1920 raster. -/
theorem C7_downloadPoster_filename_and_dimensions (s : Poster.CanvasState) :
    Poster.downloadPoster true true s
      = { state := s, toasts := 0,
          download := some ("magazine-poster.png", ⟨s.canvasW, s.canvasH⟩),
          err := none } ∧
    (Poster.downloadPoster true true
        (Poster.initialCanvasState 1080 1920)).download
      = some ("magazine-poster.png", ⟨1080, 1920⟩) :=
  ⟨rfl, rfl⟩

/-- C9: the width/height rule of `src/components/PosterGenerator.tsx`
accepts the raw string `"0"` (it is a digit run) and yields the value `0`,
which is not a positive integer; the first revision's rule in
`src/unnamed/part_001` accepts any non-empty string, even the non-numeric
`"abc"`.  Non-numeric input is rejected by the tsx rule and `"12"` is
accepted, as expected. -/
theorem C9_dimension_validation_accepts_nonpositive :
    Poster.validateDimension ['0'] = some 0 ∧
    ¬ 0 < (0 : ℕ) ∧
    Poster.validateDimension ['a', 'b', 'c'] = none ∧
    Poster.validateDimension_v1 ['a', 'b', 'c'] = true ∧
    Poster.validateDimension ['1', '2'] = some 12 := by
  refine ⟨?_, by decide, ?_, ?_, ?_⟩ <;> decide

/-- C10: a drag commit of one layer changes only that layer's position —
every other layer's position, the image size and the canvas dimensions are
untouched — and a resize commit changes only the image size, leaving all
four positions and the canvas dimensions untouched. -/
theorem C10_commit_frame_conditions
    (lid lid' : Poster.LayerId) (lw lh x y rW rH : ℚ)
    (s : Poster.CanvasState) (hne : lid' ≠ lid) :
    Poster.layerPos lid' (Poster.commitDrag lid lw lh s x y)
      = Poster.layerPos lid' s ∧
    (Poster.commitDrag lid lw lh s x y).imageSize = s.imageSize ∧
    (Poster.commitDrag lid lw lh s x y).canvasW = s.canvasW ∧
    (Poster.commitDrag lid lw lh s x y).canvasH = s.canvasH ∧
    (Poster.commitResize s rW rH).canvasW = s.canvasW ∧
    (Poster.commitResize s rW rH).canvasH = s.canvasH ∧
    ∀ l, Poster.layerPos l (Poster.commitResize s rW rH)
        = Poster.layerPos l s := by
  refine ⟨?_, ?_, ?_, ?_, rfl, rfl, fun l => ?_⟩
  · cases lid <;> cases lid' <;> first | exact absurd rfl hne | rfl
  · cases lid <;> rfl
  · cases lid <;> rfl
  · cases lid <;> rfl
  · cases l <;> rfl

/-- Witness for C10: dragging the QR code does not move the title, and a
resize does not change the canvas width. -/
theorem C10_commit_frame_conditions_witness :
    Poster.layerPos .title
        (Poster.commitDrag .qrCode 116 116
          (Poster.initialCanvasState 1080 1920) 300 300)
      = Poster.layerPos .title (Poster.initialCanvasState 1080 1920) ∧
    (Poster.commitResize (Poster.initialCanvasState 1080 1920) 5 5).canvasW
      = (Poster.initialCanvasState 1080 1920).canvasW :=
  ⟨(C10_commit_frame_conditions .qrCode .title 116 116 300 300 5 5
      (Poster.initialCanvasState 1080 1920) (by decide)).1,
   (C10_commit_frame_conditions .qrCode .title 116 116 300 300 5 5
      (Poster.initialCanvasState 1080 1920) (by decide)).2.2.2.2.1⟩
